import Mathlib

/-!
Verification of the solar-system visualizer (repository 23MH1A1202/solar-system).

The repository holds near-duplicate React/three.js app variants.  The two that
carry the interesting behavior are:

* `src/unnamed/part_001` — the "smooth" variant: a `CameraController` with a
  rigid-follow tracking mode, a direction-preserving reset/home policy, an
  auto-release distance check with margin 60, and a scene with a `Moon`
  component mounted at the scene root;
* the second app inside `src/src/App.js` — a `CameraController` with a fixed
  home position `(0,150,200)`, auto-release margin 30, and a `Planet`
  component with a global pause flag.

Vectors are modelled by `Vec3` over `ℝ`, mirroring three.js `Vector3`
operations (`lerp`, `normalize`, `distanceTo`, `length`).  Each per-frame
`useFrame` callback is embedded as an explicit state-transition function.
-/

noncomputable section

open scoped Classical

/-- A 3-component real vector, mirroring `THREE.Vector3`. -/
structure Vec3 where
  x : ℝ
  y : ℝ
  z : ℝ

instance : Add Vec3 := ⟨fun a b => ⟨a.x + b.x, a.y + b.y, a.z + b.z⟩⟩

instance : Sub Vec3 := ⟨fun a b => ⟨a.x - b.x, a.y - b.y, a.z - b.z⟩⟩

instance : SMul ℝ Vec3 := ⟨fun c v => ⟨c * v.x, c * v.y, c * v.z⟩⟩

/-- The system center (the sun's fixed position, `new THREE.Vector3(0,0,0)`). -/
def origin : Vec3 := ⟨0, 0, 0⟩

/-- Squared length, mirroring `Vector3.lengthSq` (`x*x + y*y + z*z`). -/
def normSq3 (v : Vec3) : ℝ := v.x * v.x + v.y * v.y + v.z * v.z

/-- Length, mirroring `Vector3.length` (`sqrt(x*x + y*y + z*z)`). -/
def norm3 (v : Vec3) : ℝ := Real.sqrt (normSq3 v)

/-- Mirrors `Vector3.normalize`: `divideScalar(length || 1)`, so the zero
vector is left unchanged. -/
def normalize3 (v : Vec3) : Vec3 := if norm3 v = 0 then v else (1 / norm3 v) • v

/-- Mirrors `Vector3.distanceTo`. -/
def dist3 (a b : Vec3) : ℝ := norm3 (a - b)

/-- Mirrors `Vector3.lerp(v, alpha)`: each component moves by
`(v - this) * alpha`. -/
def lerp3 (a b : Vec3) (t : ℝ) : Vec3 := a + t • (b - a)

/-!
## Body renderer (`Planet` components)

`src/unnamed/part_001`, `Planet` (lines 432-440):

```
useFrame((state, delta) => {
  if (orbitRef.current) {
    angle.current += delta * orbitSpeed * 0.05;
    const x = Math.sin(angle.current) * distance;
    const z = Math.cos(angle.current) * distance;
    orbitRef.current.position.set(x, 0, z);
  }
  if (spinRef.current) spinRef.current.rotation.y += 0.005;
});
```

`src/src/App.js` (second app), `Planet` (lines 311-321): identical except the
orbit update is guarded by the global pause flag
(`if (orbitGroupRef.current && !isPaused) { ... }`), while the spin update is
unconditional.
-/

/-- Per-body orbital state: accumulated phase angle, world position of the
orbit group, and self-rotation angle. -/
structure PlanetState where
  angle : ℝ
  pos : Vec3
  spin : ℝ

/-- One frame of the `part_001` `Planet` `useFrame` callback. -/
def planetStepP1 (orbitSpeed distance delta : ℝ) (st : PlanetState) : PlanetState :=
  let a := st.angle + delta * orbitSpeed * 0.05
  { angle := a
    pos := ⟨Real.sin a * distance, 0, Real.cos a * distance⟩
    spin := st.spin + 0.005 }

/-- One frame of the `App.js` (second app) `Planet` `useFrame` callback, with
the global pause flag.  The orbit update is skipped when paused; the spin
update is unconditional. -/
def planetStepApp (isPaused : Bool) (orbitSpeed distance delta : ℝ)
    (st : PlanetState) : PlanetState :=
  let st1 :=
    if isPaused then st
    else
      let a := st.angle + delta * orbitSpeed * 0.05
      { st with angle := a
                pos := ⟨Real.sin a * distance, 0, Real.cos a * distance⟩ }
  { st1 with spin := st1.spin + 0.005 }

/-!
## Moons

`src/unnamed/part_001`, `Moon` (lines 315-351): each frame
`angle += delta * orbitSpeed * 0.1` and the moon's group position is set to
`(sin(angle)*distance, 0, cos(angle)*distance)` — a position *relative to the
group's parent in the scene graph*.  In the `part_001` scene the `Moon`
element (line 633) is mounted directly under the `Canvas` root, so its parent
frame is the world frame and its orbit center is the origin.  In the first
app of `src/src/App.js` (`OrbitSystem`/`Moon`, lines 122-124 and 132-145) the
`Moon` is nested inside its planet's orbit group (Earth, whose tilt is 0, so
the enclosing rotation is the identity), and its world position is the
parent's world position plus the same local offset.
-/

/-- One frame of the `part_001` `Moon` angle update. -/
def moonAngleStepP1 (orbitSpeed delta angle : ℝ) : ℝ :=
  angle + delta * orbitSpeed * 0.1

/-- The local circular-orbit offset a `Moon` writes into its group position. -/
def moonLocalPos (distance angle : ℝ) : Vec3 :=
  ⟨Real.sin angle * distance, 0, Real.cos angle * distance⟩

/-- World position of the `part_001` moon: its group's parent is the scene
root, so the world position is the local offset itself. -/
def moonWorldPosP1 (distance angle : ℝ) : Vec3 := moonLocalPos distance angle

/-- World position of a moon nested inside its parent planet's orbit group
(the `OrbitSystem` layout of the first `App.js` app, with the mooned planet's
tilt equal to 0): parent world position plus the local offset. -/
def moonWorldPosNested (parentPos : Vec3) (distance angle : ℝ) : Vec3 :=
  parentPos + moonLocalPos distance angle

/-!
## Camera controller, `part_001` variant (lines 482-563)

State held across frames: `camera.position`, `controls.target`, the refs
`isTransitioning`, `isResetting`, `previousTarget`, and the React state
`focusedPlanet` (the Selection Channel).  The selected body carries a live
position handle (`focusedPlanet.ref.current`), which may be unavailable
(`none`).  `setFocusedPlanet(null)` takes effect for subsequent frames and is
modelled as the `focused` field of the step's output.
-/

/-- The Selection Channel payload in `part_001`:
`{ name, ref, size }` — we keep whether the name is `"Sun"` (the only name
the controller compares against), the visual size, and the live world
position read through the ref (`none` when `ref.current` is unavailable). -/
structure FocusData where
  isSun : Bool
  size : ℝ
  livePos : Option Vec3

/-- Full per-frame state of the `part_001` `CameraController`. -/
structure CtrlState where
  camPos : Vec3
  target : Vec3
  isTransitioning : Bool
  isResetting : Bool
  prevTarget : Vec3
  focused : Option FocusData

/-- The stand-off distance of `part_001`:
`focusedPlanet.name === "Sun" ? size * 4 : size * 5 + 15`. -/
def standoffP1 (isSun : Bool) (size : ℝ) : ℝ :=
  if isSun then size * 4 else size * 5 + 15

/-- The goal camera position of `part_001` (lines 526-530):
`desired = targetPos + dirToSun * dist` with
`dirToSun = (sun - targetPos).normalize()`, then `desired.y += size * 2`. -/
def goalCamP1 (isSun : Bool) (size : ℝ) (targetPos : Vec3) : Vec3 :=
  let dirToSun := normalize3 (origin - targetPos)
  let desired := targetPos + standoffP1 isSun size • dirToSun
  ⟨desired.x, desired.y + size * 2, desired.z⟩

/-- The reset branch of `part_001` (lines 507-520): push the camera out to at
least the safe distance 250 along its current direction, floor its height at
50, and ease both target and camera; the resetting flag clears once the
target is within 1 of the origin. -/
def resetBranchP1 (s : CtrlState) : CtrlState :=
  let targetDist := max (norm3 s.camPos) 250
  let home0 := targetDist • normalize3 s.camPos
  let home : Vec3 := if home0.y < 50 then ⟨home0.x, 50, home0.z⟩ else home0
  let target' := lerp3 s.target origin 0.05
  let cam' := lerp3 s.camPos home 0.05
  { s with target := target', camPos := cam'
           isResetting := if dist3 target' origin < 1 then false else s.isResetting }

/-- The no-focus branch of `part_001` (lines 551-557): drift the target to
the origin and, when the camera is closer than 80 to the origin, lerp it
toward the point at distance 120 along its current direction. -/
def overviewBranchP1 (s : CtrlState) : CtrlState :=
  let target' := lerp3 s.target origin 0.05
  let cam' :=
    if norm3 s.camPos < 80 then lerp3 s.camPos ((120 : ℝ) • normalize3 s.camPos) 0.05
    else s.camPos
  { s with target := target', camPos := cam' }

/-- The movement part of the `part_001` focused branch (lines 532-545):
fly-in easing with factor 0.06 while `isTransitioning` (clearing the flag and
latching `previousTarget` once the camera is within 0.5 of the goal),
otherwise rigid follow: translate the camera by the body's movement delta,
copy the target, and latch `previousTarget`. -/
def moveFocusP1 (s : CtrlState) (isSun : Bool) (size : ℝ) (targetPos : Vec3) :
    CtrlState :=
  let desired := goalCamP1 isSun size targetPos
  if s.isTransitioning then
    let target' := lerp3 s.target targetPos 0.06
    let cam' := lerp3 s.camPos desired 0.06
    if dist3 cam' desired < 0.5 then
      { s with target := target', camPos := cam'
               isTransitioning := false, prevTarget := targetPos }
    else
      { s with target := target', camPos := cam' }
  else
    { s with camPos := s.camPos + (targetPos - s.prevTarget)
             target := targetPos, prevTarget := targetPos }

/-- The `part_001` focused branch (lines 522-550): the movement above, then
the auto-release check
`!isTransitioning.current && camera.position.distanceTo(targetPos) > dist + 60`
on the updated refs (`setFocusedPlanet(null)` when it fires). -/
def focusBranchP1 (s : CtrlState) (isSun : Bool) (size : ℝ) (targetPos : Vec3) :
    CtrlState :=
  let s1 := moveFocusP1 s isSun size targetPos
  if s1.isTransitioning = false ∧
      dist3 s1.camPos targetPos > standoffP1 isSun size + 60
  then { s1 with focused := none }
  else s1

/-- One frame of the `part_001` `CameraController` `useFrame` callback
(lines 504-560): the reset branch returns early; a selection whose live
handle is unavailable falls through to the no-focus branch. -/
def stepP1 (s : CtrlState) : CtrlState :=
  if s.isResetting = true ∧ s.focused = none then resetBranchP1 s
  else
    match s.focused with
    | some f =>
      match f.livePos with
      | some p => focusBranchP1 s f.isSun f.size p
      | none => overviewBranchP1 s
    | none => overviewBranchP1 s

/-- The `part_001` "return to orbit" request: `handleReturn` dispatches the
`reset-camera` event, whose listener sets `isResetting = true` and
`setFocusedPlanet(null)`. -/
def requestReturnP1 (s : CtrlState) : CtrlState :=
  { s with isResetting := true, focused := none }

/-!
## Camera controller, `App.js` second app (lines 394-455)

The Selection payload is `{ name, position, size }` where `position` is a
direct reference to the planet's orbit-group position (always available).
The release check runs before the movement branches, on the pre-movement
camera position and transition flag; `setFocusedPlanet(null)` again only
affects later frames and is modelled as the output `focused` field.
-/

/-- Selection payload of the `App.js` controller: live position and size. -/
structure AppFocus where
  pos : Vec3
  size : ℝ

/-- Per-frame state of the `App.js` `CameraController`. -/
structure AppState where
  camPos : Vec3
  target : Vec3
  isTransitioning : Bool
  isResetting : Bool
  focused : Option AppFocus

/-- The `App.js` stand-off distance: `zoomDistance = size * 6 + 12`. -/
def zoomApp (size : ℝ) : ℝ := size * 6 + 12

/-- The `App.js` goal camera position (lines 421-425):
`goalPos = goalLookAt + sunDirection * zoomDistance` with
`sunDirection = (0 - goalLookAt).normalize()`, then
`goalPos.y += size * 2`. -/
def goalCamApp (size : ℝ) (p : Vec3) : Vec3 :=
  let sunDirection := normalize3 (origin - p)
  let goalPos := p + zoomApp size • sunDirection
  ⟨goalPos.x, goalPos.y + size * 2, goalPos.z⟩

/-- The fixed home camera position of the `App.js` controller,
`new THREE.Vector3(0, 150, 200)`. -/
def homeApp : Vec3 := ⟨0, 150, 200⟩

/-- The movement branch chain of the `App.js` controller (lines 433-450):
fly-in easing with factor 0.04 (clearing the flag once both camera and target
are within 0.5 of their goals), reset easing toward `(0,150,200)` (clearing
the resetting flag within distance 2), overview target drift, or target copy
while tracking. -/
def moveApp (s : AppState) : AppState :=
  match s.focused with
  | some f =>
    if s.isTransitioning then
      let target' := lerp3 s.target f.pos 0.04
      let cam' := lerp3 s.camPos (goalCamApp f.size f.pos) 0.04
      if dist3 cam' (goalCamApp f.size f.pos) < 0.5 ∧ dist3 target' f.pos < 0.5 then
        { s with target := target', camPos := cam', isTransitioning := false }
      else
        { s with target := target', camPos := cam' }
    else
      { s with target := f.pos }
  | none =>
    if s.isResetting then
      let target' := lerp3 s.target origin 0.04
      let cam' := lerp3 s.camPos homeApp 0.04
      if dist3 cam' homeApp < 2 then
        { s with target := target', camPos := cam', isResetting := false }
      else
        { s with target := target', camPos := cam' }
    else
      { s with target := lerp3 s.target origin 0.05 }

/-- One frame of the `App.js` `CameraController` `useFrame` callback
(lines 412-453): the auto-release check
`!isTransitioning.current && currentDist > zoomDistance + 30` reads the
pre-movement camera position and flag (it textually precedes the movement);
its `setFocusedPlanet(null)` only shows up in the output selection. -/
def stepApp (s : AppState) : AppState :=
  let s1 := moveApp s
  match s.focused with
  | some f =>
    if s.isTransitioning = false ∧ dist3 s.camPos f.pos > zoomApp f.size + 30
    then { s1 with focused := none }
    else s1
  | none => s1

/-- The `App.js` "return" request: `handleReturn` calls
`setFocusedPlanet(null)` and dispatches `reset-camera`, whose listener sets
`isResetting = true`. -/
def requestReturnApp (s : AppState) : AppState :=
  { s with isResetting := true, focused := none }

/-!
## Concrete sample states

Used to instantiate the theorems below at explicit inputs.
-/

/-- A steady-tracking `part_001` state: a non-sun body of size 1 selected,
live position `(0,0,12)`, previous target `(0,0,10)` (the body moved by
`(0,0,2)` since the previous frame). -/
def c1TrackP1 : CtrlState :=
  ⟨⟨0, 2, -8⟩, ⟨0, 0, 10⟩, false, false, ⟨0, 0, 10⟩, some ⟨false, 1, some ⟨0, 0, 12⟩⟩⟩

/-- A steady-tracking `App.js` state: body of size 1 whose live position is
`(0,0,12)`, having moved by `(0,0,2)` from `(0,0,10)` where the camera and
target settled on the previous frame. -/
def c1AppTrack : AppState :=
  ⟨⟨0, 2, -8⟩, ⟨0, 0, 10⟩, false, false, some ⟨⟨0, 0, 12⟩, 1⟩⟩

/-- A steady-tracking `part_001` state with the body at `(0,0,10)`. -/
def c2TrackP1 : CtrlState :=
  ⟨⟨0, 2, -8⟩, ⟨0, 0, 10⟩, false, false, ⟨0, 0, 10⟩, some ⟨false, 1, some ⟨0, 0, 10⟩⟩⟩

/-- A `part_001` fly-in state whose camera already sits at the goal camera
position for the selected body (size 1 at `(0,0,10)`, goal `(0,2,-10)`),
while the look-at target `(100,0,0)` is still far from the body. -/
def c3FlyIn : CtrlState :=
  ⟨⟨0, 2, -10⟩, ⟨100, 0, 0⟩, true, false, ⟨0, 0, 0⟩, some ⟨false, 1, some ⟨0, 0, 10⟩⟩⟩

/-- An `App.js` fly-in state. -/
def c3AppFlyIn : AppState :=
  ⟨⟨0, 0, 100⟩, ⟨0, 0, 0⟩, true, false, some ⟨⟨0, 0, 10⟩, 1⟩⟩

/-- A `part_001` home-configuration state: no selection, no reset pending,
target at the origin, camera at distance 250 with height 250. -/
def c7Home : CtrlState :=
  ⟨⟨0, 250, 0⟩, ⟨0, 0, 0⟩, false, false, ⟨0, 0, 0⟩, none⟩

/-- An `App.js` home-configuration state: no selection, no reset pending,
target at the origin, camera at the fixed home `(0,150,200)`. -/
def c7HomeApp : AppState :=
  ⟨⟨0, 150, 200⟩, ⟨0, 0, 0⟩, false, false, none⟩

/-- A `part_001` state with a selected body whose live-position handle is
unavailable (`ref.current` gone), camera at distance 100. -/
def c8Missing : CtrlState :=
  ⟨⟨0, 0, 100⟩, ⟨0, 0, 0⟩, false, false, ⟨0, 0, 0⟩, some ⟨false, 1, none⟩⟩

/-- A `part_001` overview state with the camera at distance 50 (< 80). -/
def c10Near : CtrlState :=
  ⟨⟨0, 0, 50⟩, ⟨0, 0, 0⟩, false, false, ⟨0, 0, 0⟩, none⟩

/-!
## Basic lemmas
-/

@[simp] theorem Vec3.add_def (a b : Vec3) :
    a + b = ⟨a.x + b.x, a.y + b.y, a.z + b.z⟩ := rfl

@[simp] theorem Vec3.sub_def (a b : Vec3) :
    a - b = ⟨a.x - b.x, a.y - b.y, a.z - b.z⟩ := rfl

@[simp] theorem Vec3.smul_def (c : ℝ) (v : Vec3) :
    c • v = ⟨c * v.x, c * v.y, c * v.z⟩ := rfl

theorem Vec3.ext_iff {a b : Vec3} : a = b ↔ a.x = b.x ∧ a.y = b.y ∧ a.z = b.z := by
  cases a; cases b; simp [Vec3.mk.injEq]

theorem normSq3_nonneg (v : Vec3) : 0 ≤ normSq3 v := by
  have hx := mul_self_nonneg v.x
  have hy := mul_self_nonneg v.y
  have hz := mul_self_nonneg v.z
  unfold normSq3; linarith

theorem norm3_nonneg (v : Vec3) : 0 ≤ norm3 v := Real.sqrt_nonneg _

theorem sqrtEqOfSq {a b : ℝ} (hb : 0 ≤ b) (h : a = b ^ 2) : Real.sqrt a = b := by
  rw [h, Real.sqrt_sq hb]

theorem sqrtLeOfSq {a b : ℝ} (hb : 0 ≤ b) (h : a ≤ b ^ 2) : Real.sqrt a ≤ b := by
  calc Real.sqrt a ≤ Real.sqrt (b ^ 2) := Real.sqrt_le_sqrt h
    _ = b := Real.sqrt_sq hb

theorem ltSqrtOfSq {a b : ℝ} (hb : 0 ≤ b) (h : b ^ 2 < a) : b < Real.sqrt a :=
  (Real.lt_sqrt hb).mpr h

theorem norm3_eq_zero {v : Vec3} : norm3 v = 0 ↔ v = origin := by
  constructor
  · intro h
    have hle : normSq3 v ≤ 0 := Real.sqrt_eq_zero'.mp h
    have h0 : normSq3 v = 0 := le_antisymm hle (normSq3_nonneg v)
    have hx := mul_self_nonneg v.x
    have hy := mul_self_nonneg v.y
    have hz := mul_self_nonneg v.z
    unfold normSq3 at h0
    have hx0 : v.x = 0 := by nlinarith
    have hy0 : v.y = 0 := by nlinarith
    have hz0 : v.z = 0 := by nlinarith
    cases v; simp_all [origin]
  · intro h; subst h; simp [norm3, normSq3, origin]

theorem norm3_smul (c : ℝ) (v : Vec3) : norm3 (c • v) = |c| * norm3 v := by
  unfold norm3 normSq3
  simp only [Vec3.smul_def]
  rw [show c * v.x * (c * v.x) + c * v.y * (c * v.y) + c * v.z * (c * v.z)
        = c ^ 2 * (v.x * v.x + v.y * v.y + v.z * v.z) by ring]
  rw [Real.sqrt_mul (sq_nonneg c), Real.sqrt_sq_eq_abs]

theorem lerp3_self (a : Vec3) (t : ℝ) : lerp3 a a t = a := by
  simp [lerp3, Vec3.ext_iff]

theorem dist3_self (a : Vec3) : dist3 a a = 0 := by
  simp [dist3, norm3, normSq3]

theorem normalize3_of_ne {v : Vec3} (h : v ≠ origin) :
    normalize3 v = (1 / norm3 v) • v := by
  unfold normalize3
  rw [if_neg (fun h0 => h (norm3_eq_zero.mp h0))]

theorem norm3_pos {v : Vec3} (h : v ≠ origin) : 0 < norm3 v :=
  lt_of_le_of_ne (norm3_nonneg v) (fun h0 => h (norm3_eq_zero.mp h0.symm))

theorem norm3_normalize3 {v : Vec3} (h : v ≠ origin) :
    norm3 (normalize3 v) = 1 := by
  have hpos : 0 < norm3 v := norm3_pos h
  rw [normalize3_of_ne h, norm3_smul]
  rw [abs_of_pos (by positivity : (0:ℝ) < 1 / norm3 v)]
  field_simp

/-!
## Branch-selection lemmas for the controller steps
-/

theorem stepP1_focus {s : CtrlState} {f : FocusData} {p : Vec3}
    (hf : s.focused = some f) (hl : f.livePos = some p) :
    stepP1 s = focusBranchP1 s f.isSun f.size p := by
  simp [stepP1, hf, hl]

theorem stepP1_noFocus {s : CtrlState}
    (hf : s.focused = none) (hr : s.isResetting = false) :
    stepP1 s = overviewBranchP1 s := by
  unfold stepP1
  rw [if_neg (by simp [hr]), hf]

theorem stepP1_handleMissing {s : CtrlState} {f : FocusData}
    (hf : s.focused = some f) (hl : f.livePos = none) :
    stepP1 s = overviewBranchP1 s := by
  simp [stepP1, hf, hl]

theorem stepP1_reset {s : CtrlState}
    (hr : s.isResetting = true) (hf : s.focused = none) :
    stepP1 s = resetBranchP1 s := by
  unfold stepP1
  rw [if_pos ⟨hr, hf⟩]

theorem moveFocusP1_focused (s : CtrlState) (isSun : Bool) (size : ℝ) (p : Vec3) :
    (moveFocusP1 s isSun size p).focused = s.focused := by
  unfold moveFocusP1
  dsimp only
  split_ifs <;> rfl

theorem moveFocusP1_track {s : CtrlState} (isSun : Bool) (size : ℝ) (p : Vec3)
    (ht : s.isTransitioning = false) :
    moveFocusP1 s isSun size p
      = { s with camPos := s.camPos + (p - s.prevTarget)
                 target := p, prevTarget := p } := by
  unfold moveFocusP1
  rw [ht]
  simp

theorem focusBranchP1_camPos (s : CtrlState) (isSun : Bool) (size : ℝ) (p : Vec3) :
    (focusBranchP1 s isSun size p).camPos = (moveFocusP1 s isSun size p).camPos := by
  unfold focusBranchP1
  dsimp only
  split_ifs <;> rfl

theorem focusBranchP1_target (s : CtrlState) (isSun : Bool) (size : ℝ) (p : Vec3) :
    (focusBranchP1 s isSun size p).target = (moveFocusP1 s isSun size p).target := by
  unfold focusBranchP1
  dsimp only
  split_ifs <;> rfl

theorem focusBranchP1_isTransitioning (s : CtrlState) (isSun : Bool) (size : ℝ)
    (p : Vec3) :
    (focusBranchP1 s isSun size p).isTransitioning
      = (moveFocusP1 s isSun size p).isTransitioning := by
  unfold focusBranchP1
  dsimp only
  split_ifs <;> rfl

theorem focusBranchP1_focused_iff {s : CtrlState} {isSun : Bool} {size : ℝ}
    {p : Vec3} (hs : s.focused ≠ none) :
    (focusBranchP1 s isSun size p).focused = none ↔
      ((moveFocusP1 s isSun size p).isTransitioning = false ∧
        dist3 (moveFocusP1 s isSun size p).camPos p > standoffP1 isSun size + 60) := by
  have hms : (moveFocusP1 s isSun size p).focused = s.focused :=
    moveFocusP1_focused s isSun size p
  unfold focusBranchP1
  dsimp only
  split_ifs with h
  · simpa using h
  · simp only [hms]
    constructor
    · intro h0; exact absurd h0 hs
    · intro h0; exact absurd h0 h

theorem moveApp_focused (s : AppState) : (moveApp s).focused = s.focused := by
  unfold moveApp
  rcases h : s.focused with _ | f <;> simp <;> split_ifs <;> rfl

theorem stepApp_focused_iff {s : AppState} {f : AppFocus} (hf : s.focused = some f) :
    (stepApp s).focused = none ↔
      (s.isTransitioning = false ∧ dist3 s.camPos f.pos > zoomApp f.size + 30) := by
  have hms : (moveApp s).focused = s.focused := moveApp_focused s
  simp only [stepApp, hf]
  split_ifs with h
  · simpa using h
  · simp only [hms, hf]
    constructor
    · intro h0; exact absurd h0 (by simp)
    · intro h0; exact absurd h0 h

theorem stepApp_camPos (s : AppState) : (stepApp s).camPos = (moveApp s).camPos := by
  unfold stepApp
  rcases h : s.focused with _ | f <;> simp <;> split_ifs <;> rfl

theorem stepApp_target (s : AppState) : (stepApp s).target = (moveApp s).target := by
  unfold stepApp
  rcases h : s.focused with _ | f <;> simp <;> split_ifs <;> rfl

theorem stepApp_isTransitioning (s : AppState) :
    (stepApp s).isTransitioning = (moveApp s).isTransitioning := by
  unfold stepApp
  rcases h : s.focused with _ | f <;> simp <;> split_ifs <;> rfl

theorem stepApp_isResetting (s : AppState) :
    (stepApp s).isResetting = (moveApp s).isResetting := by
  unfold stepApp
  rcases h : s.focused with _ | f <;> simp <;> split_ifs <;> rfl

theorem moveApp_track {s : AppState} {f : AppFocus}
    (hf : s.focused = some f) (ht : s.isTransitioning = false) :
    moveApp s = { s with target := f.pos } := by
  unfold moveApp
  rw [hf, ht]
  simp

theorem moveFocusP1_flyIn_arrive {s : CtrlState} (isSun : Bool) (size : ℝ)
    (p : Vec3) (ht : s.isTransitioning = true)
    (harr : dist3 (lerp3 s.camPos (goalCamP1 isSun size p) 0.06)
              (goalCamP1 isSun size p) < 0.5) :
    moveFocusP1 s isSun size p
      = { s with target := lerp3 s.target p 0.06
                 camPos := lerp3 s.camPos (goalCamP1 isSun size p) 0.06
                 isTransitioning := false, prevTarget := p } := by
  unfold moveFocusP1
  rw [ht]
  simp [harr]

theorem moveFocusP1_flyIn_stay {s : CtrlState} (isSun : Bool) (size : ℝ)
    (p : Vec3) (ht : s.isTransitioning = true)
    (harr : ¬ dist3 (lerp3 s.camPos (goalCamP1 isSun size p) 0.06)
              (goalCamP1 isSun size p) < 0.5) :
    moveFocusP1 s isSun size p
      = { s with target := lerp3 s.target p 0.06
                 camPos := lerp3 s.camPos (goalCamP1 isSun size p) 0.06 } := by
  unfold moveFocusP1
  rw [ht]
  simp [harr]

theorem moveApp_flyIn_arrive {s : AppState} {f : AppFocus}
    (hf : s.focused = some f) (ht : s.isTransitioning = true)
    (harr : dist3 (lerp3 s.camPos (goalCamApp f.size f.pos) 0.04)
              (goalCamApp f.size f.pos) < 0.5 ∧
            dist3 (lerp3 s.target f.pos 0.04) f.pos < 0.5) :
    moveApp s
      = { s with target := lerp3 s.target f.pos 0.04
                 camPos := lerp3 s.camPos (goalCamApp f.size f.pos) 0.04
                 isTransitioning := false } := by
  unfold moveApp
  rw [hf, ht]
  simp [harr.1, harr.2]

theorem moveApp_flyIn_stay {s : AppState} {f : AppFocus}
    (hf : s.focused = some f) (ht : s.isTransitioning = true)
    (harr : ¬ (dist3 (lerp3 s.camPos (goalCamApp f.size f.pos) 0.04)
                 (goalCamApp f.size f.pos) < 0.5 ∧
               dist3 (lerp3 s.target f.pos 0.04) f.pos < 0.5)) :
    moveApp s
      = { s with target := lerp3 s.target f.pos 0.04
                 camPos := lerp3 s.camPos (goalCamApp f.size f.pos) 0.04 } := by
  unfold moveApp
  rw [hf, ht]
  simp [harr]

theorem overviewBranchP1_far {s : CtrlState} (h : ¬ norm3 s.camPos < 80) :
    overviewBranchP1 s = { s with target := lerp3 s.target origin 0.05 } := by
  unfold overviewBranchP1
  simp [h]

theorem overviewBranchP1_near {s : CtrlState} (h : norm3 s.camPos < 80) :
    overviewBranchP1 s
      = { s with target := lerp3 s.target origin 0.05
                 camPos := lerp3 s.camPos ((120 : ℝ) • normalize3 s.camPos) 0.05 } := by
  unfold overviewBranchP1
  simp [h]

theorem resetBranchP1_focused (s : CtrlState) :
    (resetBranchP1 s).focused = s.focused := rfl

theorem origin_sub_ne {p : Vec3} (hp : p ≠ origin) : origin - p ≠ origin := by
  intro hc
  apply hp
  cases p
  simp only [origin, Vec3.sub_def, Vec3.mk.injEq] at hc ⊢
  refine ⟨by linarith [hc.1], by linarith [hc.2.1], by linarith [hc.2.2]⟩

theorem sub_origin (v : Vec3) : v - origin = v := by
  simp [origin, Vec3.ext_iff]

theorem stepApp_noFocus {s : AppState} (h : s.focused = none) :
    stepApp s = moveApp s := by
  unfold stepApp
  rw [h]

theorem moveApp_reset {s : AppState} (hf : s.focused = none)
    (hr : s.isResetting = true)
    (harr : dist3 (lerp3 s.camPos homeApp 0.04) homeApp < 2) :
    moveApp s = { s with target := lerp3 s.target origin 0.04
                         camPos := lerp3 s.camPos homeApp 0.04
                         isResetting := false } := by
  unfold moveApp
  rw [hf, hr]
  simp [harr]

theorem moveApp_overview {s : AppState} (hf : s.focused = none)
    (hr : s.isResetting = false) :
    moveApp s = { s with target := lerp3 s.target origin 0.05 } := by
  unfold moveApp
  rw [hf, hr]
  simp

theorem norm3_origin : norm3 origin = 0 := by
  simp [norm3, normSq3, origin]

theorem resetBranchP1_home {s : CtrlState} (htar : s.target = origin)
    (hdist : 250 ≤ norm3 s.camPos) (hy : 50 ≤ s.camPos.y) :
    resetBranchP1 s = { s with isResetting := false } := by
  have hne : s.camPos ≠ origin := by
    intro h
    rw [h, norm3_origin] at hdist
    norm_num at hdist
  have hn0 : norm3 s.camPos ≠ 0 := fun h => hne (norm3_eq_zero.mp h)
  have hhome : (max (norm3 s.camPos) 250) • normalize3 s.camPos = s.camPos := by
    rw [max_eq_left hdist, normalize3_of_ne hne]
    simp only [Vec3.smul_def, Vec3.ext_iff]
    refine ⟨?_, ?_, ?_⟩ <;> field_simp
  unfold resetBranchP1
  dsimp only
  rw [hhome, if_neg (not_lt.mpr hy), htar, lerp3_self, lerp3_self, dist3_self]
  rw [if_pos (by norm_num : (0:ℝ) < 1), ← htar]

/-!
## Claims
-/

/-- C5: for a body with orbital radius `R > 0` and angular speed `s`, one
unpaused frame with time-delta `Δt` advances the phase by exactly
`Δt * s * K` with `K = 0.05` (hence also modulo `2π`), and the resulting
position `(sin(phase)*R, 0, cos(phase)*R)` lies on the circle of radius `R`
in the orbital plane (`x² + z² = R²`, `y = 0`); the `App.js` unpaused step
performs the very same update as the `part_001` step. -/
theorem c5_orbit_circle (orbitSpeed distance delta : ℝ) (st : PlanetState)
    (hR : 0 < distance) :
    (planetStepP1 orbitSpeed distance delta st).angle
        = st.angle + delta * orbitSpeed * 0.05 ∧
    (planetStepP1 orbitSpeed distance delta st).pos.x ^ 2
        + (planetStepP1 orbitSpeed distance delta st).pos.z ^ 2 = distance ^ 2 ∧
    (planetStepP1 orbitSpeed distance delta st).pos.y = 0 ∧
    planetStepApp false orbitSpeed distance delta st
        = planetStepP1 orbitSpeed distance delta st := by
  refine ⟨rfl, ?_, rfl, rfl⟩
  have h := Real.sin_sq_add_cos_sq (st.angle + delta * orbitSpeed * 0.05)
  simp only [planetStepP1]
  nlinarith [h, hR]

/-- C5 witness: the spec's own example body (orbit radius 38, speed 0.8,
one second of simulated time). -/
theorem c5_orbit_circle_witness :
    (0:ℝ) < 38 ∧
    ((planetStepP1 0.8 38 1 ⟨0, ⟨0, 0, 38⟩, 0⟩).angle = 0 + 1 * 0.8 * 0.05 ∧
     (planetStepP1 0.8 38 1 ⟨0, ⟨0, 0, 38⟩, 0⟩).pos.x ^ 2
        + (planetStepP1 0.8 38 1 ⟨0, ⟨0, 0, 38⟩, 0⟩).pos.z ^ 2 = 38 ^ 2 ∧
     (planetStepP1 0.8 38 1 ⟨0, ⟨0, 0, 38⟩, 0⟩).pos.y = 0 ∧
     planetStepApp false 0.8 38 1 ⟨0, ⟨0, 0, 38⟩, 0⟩
        = planetStepP1 0.8 38 1 ⟨0, ⟨0, 0, 38⟩, 0⟩) :=
  ⟨by norm_num, c5_orbit_circle 0.8 38 1 ⟨0, ⟨0, 0, 38⟩, 0⟩ (by norm_num)⟩

/-- C6: with the global pause flag true, a frame leaves the phase angle and
the orbital position unchanged while the self-rotation still advances by the
fixed increment `0.005`; with the flag false both advance. -/
theorem c6_pause_behavior (orbitSpeed distance delta : ℝ) (st : PlanetState) :
    ((planetStepApp true orbitSpeed distance delta st).angle = st.angle ∧
     (planetStepApp true orbitSpeed distance delta st).pos = st.pos ∧
     (planetStepApp true orbitSpeed distance delta st).spin = st.spin + 0.005) ∧
    ((planetStepApp false orbitSpeed distance delta st).angle
        = st.angle + delta * orbitSpeed * 0.05 ∧
     (planetStepApp false orbitSpeed distance delta st).spin = st.spin + 0.005) := by
  exact ⟨⟨rfl, rfl, rfl⟩, rfl, rfl⟩

/-- C1 counterexample: in the `App.js` controller's steady-tracking branch
(`controls.target.copy(goalLookAt)`, lines 448-450), the camera position is
not translated at all.  In state `c1AppTrack` the selected body has moved by
`Δ = (0,0,2)` (from `(0,0,10)`, where camera and target settled, to
`(0,0,12)`), yet the frame update leaves the camera at `(0,2,-8)` instead of
translating it by `Δ`, so the camera-to-body offset changes. -/
theorem c1_counterexample :
    c1AppTrack.isTransitioning = false ∧
    c1AppTrack.focused = some ⟨⟨0, 0, 12⟩, 1⟩ ∧
    ((⟨0, 0, 12⟩ : Vec3) - ⟨0, 0, 10⟩ = ⟨0, 0, 2⟩) ∧
    (stepApp c1AppTrack).camPos = c1AppTrack.camPos ∧
    (stepApp c1AppTrack).camPos ≠ c1AppTrack.camPos + ⟨0, 0, 2⟩ := by
  have hcam : (stepApp c1AppTrack).camPos = c1AppTrack.camPos := by
    rw [stepApp_camPos, moveApp_track (f := ⟨⟨0, 0, 12⟩, 1⟩) rfl rfl]
  refine ⟨rfl, rfl, by simp [Vec3.ext_iff]; norm_num, hcam, ?_⟩
  rw [hcam]
  simp only [c1AppTrack, Vec3.add_def, ne_eq, Vec3.mk.injEq]
  norm_num

/-- C1 (amended): while steady TRACKING, the `part_001` controller translates
the camera by exactly the body's movement delta `p - previousTarget`, sets
the look-at target to the body's new position, and leaves the camera-to-body
offset invariant; the `App.js` controller's tracking branch instead only sets
the look-at target, leaving the camera position unchanged. -/
theorem c1_tracking_follow (s : CtrlState) (f : FocusData) (p : Vec3)
    (hf : s.focused = some f) (hl : f.livePos = some p)
    (ht : s.isTransitioning = false)
    (t : AppState) (g : AppFocus)
    (kf : t.focused = some g) (kt : t.isTransitioning = false) :
    (stepP1 s).camPos = s.camPos + (p - s.prevTarget) ∧
    (stepP1 s).target = p ∧
    (stepP1 s).camPos - p = s.camPos - s.prevTarget ∧
    (stepApp t).camPos = t.camPos ∧
    (stepApp t).target = g.pos := by
  have h1 : stepP1 s = focusBranchP1 s f.isSun f.size p := stepP1_focus hf hl
  have hm := moveFocusP1_track (s := s) f.isSun f.size p ht
  refine ⟨?_, ?_, ?_, ?_, ?_⟩
  · rw [h1, focusBranchP1_camPos, hm]
  · rw [h1, focusBranchP1_target, hm]
  · rw [h1, focusBranchP1_camPos, hm]
    simp only [Vec3.add_def, Vec3.sub_def]
    simp [Vec3.ext_iff]
    refine ⟨by ring, by ring, by ring⟩
  · rw [stepApp_camPos, moveApp_track kf kt]
  · rw [stepApp_target, moveApp_track kf kt]

/-- C1 witness: the amended claim instantiated at `c1TrackP1` (body moved
from `(0,0,10)` to `(0,0,12)`) and `c1AppTrack`. -/
theorem c1_tracking_follow_witness :
    (c1TrackP1.focused = some ⟨false, 1, some ⟨0, 0, 12⟩⟩ ∧
     c1TrackP1.isTransitioning = false ∧
     c1AppTrack.focused = some ⟨⟨0, 0, 12⟩, 1⟩ ∧
     c1AppTrack.isTransitioning = false) ∧
    ((stepP1 c1TrackP1).camPos
        = c1TrackP1.camPos + ((⟨0, 0, 12⟩ : Vec3) - c1TrackP1.prevTarget) ∧
     (stepP1 c1TrackP1).target = ⟨0, 0, 12⟩ ∧
     (stepP1 c1TrackP1).camPos - ⟨0, 0, 12⟩
        = c1TrackP1.camPos - c1TrackP1.prevTarget ∧
     (stepApp c1AppTrack).camPos = c1AppTrack.camPos ∧
     (stepApp c1AppTrack).target = (⟨⟨0, 0, 12⟩, 1⟩ : AppFocus).pos) :=
  ⟨⟨rfl, rfl, rfl, rfl⟩,
   c1_tracking_follow c1TrackP1 ⟨false, 1, some ⟨0, 0, 12⟩⟩ ⟨0, 0, 12⟩ rfl rfl rfl
     c1AppTrack ⟨⟨0, 0, 12⟩, 1⟩ rfl rfl⟩

/-- C2: the auto-release clears the Selection exactly when, at the moment of
the check, a body is selected (with a live handle), the transition flag is
cleared, and the camera-to-target distance exceeds `standoff + releaseMargin`
(margin 60 on the post-movement camera in `part_001`; margin 30 on the
pre-movement camera in `App.js`); while the transition flag is still set the
check never clears the Selection, and while the reset (FLYING_OUT) branch
runs there is no selection and none is produced. -/
theorem c2_auto_release_exact (s : CtrlState) (f : FocusData) (p : Vec3)
    (hf : s.focused = some f) (hl : f.livePos = some p) :
    ((stepP1 s).focused = none ↔
      ((stepP1 s).isTransitioning = false ∧
        dist3 (stepP1 s).camPos p > standoffP1 f.isSun f.size + 60)) ∧
    (∀ u : CtrlState, u.isResetting = true → u.focused = none →
      (stepP1 u).focused = none) ∧
    (∀ (t : AppState) (g : AppFocus), t.focused = some g →
      ((stepApp t).focused = none ↔
        (t.isTransitioning = false ∧
          dist3 t.camPos g.pos > zoomApp g.size + 30))) := by
  refine ⟨?_, ?_, ?_⟩
  · rw [stepP1_focus hf hl, focusBranchP1_isTransitioning, focusBranchP1_camPos]
    exact focusBranchP1_focused_iff (by simp [hf])
  · intro u hr hu
    rw [stepP1_reset hr hu, resetBranchP1_focused, hu]
  · intro t g hg
    exact stepApp_focused_iff hg

/-- C2 witness: the release characterization instantiated at the
steady-tracking state `c2TrackP1`. -/
theorem c2_auto_release_exact_witness :
    (c2TrackP1.focused = some ⟨false, 1, some ⟨0, 0, 10⟩⟩) ∧
    (((stepP1 c2TrackP1).focused = none ↔
       ((stepP1 c2TrackP1).isTransitioning = false ∧
         dist3 (stepP1 c2TrackP1).camPos ⟨0, 0, 10⟩ > standoffP1 false 1 + 60)) ∧
     (∀ u : CtrlState, u.isResetting = true → u.focused = none →
       (stepP1 u).focused = none) ∧
     (∀ (t : AppState) (g : AppFocus), t.focused = some g →
       ((stepApp t).focused = none ↔
         (t.isTransitioning = false ∧
           dist3 t.camPos g.pos > zoomApp g.size + 30)))) :=
  ⟨rfl, c2_auto_release_exact c2TrackP1 ⟨false, 1, some ⟨0, 0, 10⟩⟩ ⟨0, 0, 10⟩ rfl rfl⟩

/-- C3 counterexample: the `part_001` fly-in arrival test (line 536) checks
only the camera distance.  In state `c3FlyIn` the camera already sits at the
goal camera position while the post-lerp look-at target is still far beyond
the 0.5 epsilon from the body, yet the frame clears the transition flag. -/
theorem c3_counterexample :
    c3FlyIn.isTransitioning = true ∧
    (stepP1 c3FlyIn).isTransitioning = false ∧
    (0.5 : ℝ) < dist3 (stepP1 c3FlyIn).target ⟨0, 0, 10⟩ := by
  have hsub : (origin - ⟨0, 0, 10⟩ : Vec3) = ⟨0, 0, -10⟩ := by
    simp [origin, Vec3.ext_iff]
  have hne10 : (⟨0, 0, -10⟩ : Vec3) ≠ origin := by
    simp [origin, Vec3.ext_iff]
  have h10 : norm3 (⟨0, 0, -10⟩ : Vec3) = 10 :=
    sqrtEqOfSq (by norm_num) (by norm_num [normSq3])
  have hnz : normalize3 (⟨0, 0, -10⟩ : Vec3) = ⟨0, 0, -1⟩ := by
    rw [normalize3_of_ne hne10, h10]
    simp [Vec3.ext_iff]
  have hgoal : goalCamP1 false 1 ⟨0, 0, 10⟩ = ⟨0, 2, -10⟩ := by
    unfold goalCamP1
    rw [hsub, hnz]
    simp [standoffP1, Vec3.ext_iff]
    norm_num
  have hcamlerp :
      lerp3 c3FlyIn.camPos (goalCamP1 false 1 ⟨0, 0, 10⟩) 0.06 = ⟨0, 2, -10⟩ := by
    rw [hgoal]
    exact lerp3_self _ _
  have harr : dist3 (lerp3 c3FlyIn.camPos (goalCamP1 false 1 ⟨0, 0, 10⟩) 0.06)
      (goalCamP1 false 1 ⟨0, 0, 10⟩) < 0.5 := by
    rw [hcamlerp, hgoal, dist3_self]
    norm_num
  have hstep : stepP1 c3FlyIn = focusBranchP1 c3FlyIn false 1 ⟨0, 0, 10⟩ :=
    stepP1_focus (f := ⟨false, 1, some ⟨0, 0, 10⟩⟩) (p := ⟨0, 0, 10⟩) rfl rfl
  have hmv := moveFocusP1_flyIn_arrive (s := c3FlyIn) false 1 ⟨0, 0, 10⟩ rfl harr
  refine ⟨rfl, ?_, ?_⟩
  · rw [hstep, focusBranchP1_isTransitioning, hmv]
  · rw [hstep, focusBranchP1_target, hmv]
    show (0.5 : ℝ) < dist3 (lerp3 (⟨100, 0, 0⟩ : Vec3) ⟨0, 0, 10⟩ 0.06) ⟨0, 0, 10⟩
    have hl : lerp3 (⟨100, 0, 0⟩ : Vec3) ⟨0, 0, 10⟩ 0.06 = ⟨94, 0, 0.6⟩ := by
      simp [lerp3, Vec3.ext_iff]
      norm_num
    rw [hl]
    unfold dist3 norm3
    apply ltSqrtOfSq (by norm_num)
    norm_num [normSq3]

/-- C3 (amended): while FLYING_IN with a selected body, the `App.js`
controller clears its transition flag exactly when both the post-lerp camera
and the post-lerp look-at target are within the fixed epsilon 0.5 of their
goals; the `part_001` controller clears it exactly when the post-lerp camera
is within 0.5 of the goal camera position, the look-at distance being
ignored. -/
theorem c3_arrival_exact (s : CtrlState) (f : FocusData) (p : Vec3)
    (hf : s.focused = some f) (hl : f.livePos = some p)
    (ht : s.isTransitioning = true)
    (t : AppState) (g : AppFocus)
    (kf : t.focused = some g) (kt : t.isTransitioning = true) :
    ((stepP1 s).isTransitioning = false ↔
      dist3 (lerp3 s.camPos (goalCamP1 f.isSun f.size p) 0.06)
        (goalCamP1 f.isSun f.size p) < 0.5) ∧
    ((stepApp t).isTransitioning = false ↔
      (dist3 (lerp3 t.camPos (goalCamApp g.size g.pos) 0.04)
         (goalCamApp g.size g.pos) < 0.5 ∧
       dist3 (lerp3 t.target g.pos 0.04) g.pos < 0.5)) := by
  constructor
  · rw [stepP1_focus hf hl, focusBranchP1_isTransitioning]
    by_cases harr : dist3 (lerp3 s.camPos (goalCamP1 f.isSun f.size p) 0.06)
        (goalCamP1 f.isSun f.size p) < 0.5
    · rw [moveFocusP1_flyIn_arrive _ _ _ ht harr]
      simp [harr]
    · rw [moveFocusP1_flyIn_stay _ _ _ ht harr]
      simp [harr, ht]
  · rw [stepApp_isTransitioning]
    by_cases karr : dist3 (lerp3 t.camPos (goalCamApp g.size g.pos) 0.04)
        (goalCamApp g.size g.pos) < 0.5 ∧ dist3 (lerp3 t.target g.pos 0.04) g.pos < 0.5
    · rw [moveApp_flyIn_arrive kf kt karr]
      simp [karr]
    · rw [moveApp_flyIn_stay kf kt karr]
      simp [karr, kt]

/-- C3 witness: the arrival characterization instantiated at the fly-in
states `c3FlyIn` and `c3AppFlyIn`. -/
theorem c3_arrival_exact_witness :
    (c3FlyIn.focused = some ⟨false, 1, some ⟨0, 0, 10⟩⟩ ∧
     c3FlyIn.isTransitioning = true ∧
     c3AppFlyIn.focused = some ⟨⟨0, 0, 10⟩, 1⟩ ∧
     c3AppFlyIn.isTransitioning = true) ∧
    (((stepP1 c3FlyIn).isTransitioning = false ↔
       dist3 (lerp3 c3FlyIn.camPos (goalCamP1 false 1 ⟨0, 0, 10⟩) 0.06)
         (goalCamP1 false 1 ⟨0, 0, 10⟩) < 0.5) ∧
     ((stepApp c3AppFlyIn).isTransitioning = false ↔
       (dist3 (lerp3 c3AppFlyIn.camPos (goalCamApp 1 ⟨0, 0, 10⟩) 0.04)
          (goalCamApp 1 ⟨0, 0, 10⟩) < 0.5 ∧
        dist3 (lerp3 c3AppFlyIn.target ⟨0, 0, 10⟩ 0.04) ⟨0, 0, 10⟩ < 0.5))) :=
  ⟨⟨rfl, rfl, rfl, rfl⟩,
   c3_arrival_exact c3FlyIn ⟨false, 1, some ⟨0, 0, 10⟩⟩ ⟨0, 0, 10⟩ rfl rfl rfl
     c3AppFlyIn ⟨⟨0, 0, 10⟩, 1⟩ rfl rfl⟩

/-- C4: with a selected body at live position `p ≠ 0` of visual radius
`size > 0`, both controllers aim the look-at goal at `p` itself and place the
goal camera at `p` plus the unit vector from `p` toward the origin scaled by
the stand-off distance, then lifted vertically by the fixed positive amount
`size * 2`; each stand-off formula (`size*5+15` and `size*4` in `part_001`,
`size*6+12` in `App.js`) is strictly increasing in the visual radius. -/
theorem c4_goal_geometry (isSun : Bool) (size : ℝ) (p : Vec3)
    (hp : p ≠ origin) (hsize : 0 < size) :
    goalCamP1 isSun size p
        = p + standoffP1 isSun size • ((1 / norm3 (origin - p)) • (origin - p))
            + ⟨0, size * 2, 0⟩ ∧
    norm3 (normalize3 (origin - p)) = 1 ∧
    goalCamApp size p
        = p + zoomApp size • ((1 / norm3 (origin - p)) • (origin - p))
            + ⟨0, size * 2, 0⟩ ∧
    0 < size * 2 ∧
    StrictMono (standoffP1 false) ∧
    StrictMono (standoffP1 true) ∧
    StrictMono zoomApp := by
  have hne := origin_sub_ne hp
  refine ⟨?_, norm3_normalize3 hne, ?_, by linarith, ?_, ?_, ?_⟩
  · unfold goalCamP1
    rw [normalize3_of_ne hne]
    simp only [Vec3.smul_def, Vec3.add_def, Vec3.sub_def, Vec3.ext_iff, origin]
    refine ⟨by ring, by ring, by ring⟩
  · unfold goalCamApp
    rw [normalize3_of_ne hne]
    simp only [Vec3.smul_def, Vec3.add_def, Vec3.sub_def, Vec3.ext_iff, origin]
    refine ⟨by ring, by ring, by ring⟩
  · intro a b hab
    simp only [standoffP1, Bool.false_eq_true, if_false]
    linarith
  · intro a b hab
    simp only [standoffP1, if_true]
    linarith
  · intro a b hab
    simp only [zoomApp]
    linarith

/-- C4 witness: the goal geometry instantiated at a non-sun body of size 1
at live position `(0,0,10)`. -/
theorem c4_goal_geometry_witness :
    ((⟨0, 0, 10⟩ : Vec3) ≠ origin ∧ (0:ℝ) < 1) ∧
    (goalCamP1 false 1 ⟨0, 0, 10⟩
        = ⟨0, 0, 10⟩ + standoffP1 false 1 •
            ((1 / norm3 (origin - ⟨0, 0, 10⟩)) • (origin - ⟨0, 0, 10⟩))
            + ⟨0, 1 * 2, 0⟩ ∧
     norm3 (normalize3 (origin - ⟨0, 0, 10⟩)) = 1 ∧
     goalCamApp 1 ⟨0, 0, 10⟩
        = ⟨0, 0, 10⟩ + zoomApp 1 •
            ((1 / norm3 (origin - ⟨0, 0, 10⟩)) • (origin - ⟨0, 0, 10⟩))
            + ⟨0, 1 * 2, 0⟩ ∧
     (0:ℝ) < 1 * 2 ∧
     StrictMono (standoffP1 false) ∧
     StrictMono (standoffP1 true) ∧
     StrictMono zoomApp) := by
  have hp : (⟨0, 0, 10⟩ : Vec3) ≠ origin := by
    simp [origin, Vec3.ext_iff]
  exact ⟨⟨hp, by norm_num⟩, c4_goal_geometry false 1 ⟨0, 0, 10⟩ hp (by norm_num)⟩

/-- C7: while already in OVERVIEW at the home configuration (no selection, no
pending reset, look-at target at the origin, camera at the home position — at
distance ≥ 250 with height ≥ 50 in `part_001`, at `(0,150,200)` in `App.js`),
a "return" request is a no-op: the next frame restores the exact original
state (the transient resetting flag clears with zero camera/target movement),
repeated requests coincide with a single one, and plain frames at the home
configuration also leave the state exactly unchanged. -/
theorem c7_return_idempotent (s : CtrlState)
    (hfoc : s.focused = none) (hres : s.isResetting = false)
    (htar : s.target = origin) (hdist : 250 ≤ norm3 s.camPos)
    (hy : 50 ≤ s.camPos.y)
    (t : AppState) (kfoc : t.focused = none) (kres : t.isResetting = false)
    (ktar : t.target = origin) (kcam : t.camPos = homeApp) :
    stepP1 (requestReturnP1 s) = s ∧
    requestReturnP1 (requestReturnP1 s) = requestReturnP1 s ∧
    stepP1 s = s ∧
    stepApp (requestReturnApp t) = t ∧
    requestReturnApp (requestReturnApp t) = requestReturnApp t ∧
    stepApp t = t := by
  have h80 : ¬ norm3 s.camPos < 80 := not_lt.mpr (by linarith)
  refine ⟨?_, rfl, ?_, ?_, rfl, ?_⟩
  · rw [stepP1_reset (s := requestReturnP1 s) rfl rfl]
    rw [resetBranchP1_home (s := requestReturnP1 s) htar hdist hy]
    obtain ⟨cam, tar, tr, res, prev, foc⟩ := s
    simp_all [requestReturnP1]
  · rw [stepP1_noFocus hfoc hres, overviewBranchP1_far h80, htar, lerp3_self,
      ← htar]
  · rw [stepApp_noFocus (s := requestReturnApp t) rfl]
    rw [moveApp_reset (s := requestReturnApp t) rfl rfl
      (by
        show dist3 (lerp3 t.camPos homeApp 0.04) homeApp < 2
        rw [kcam, lerp3_self, dist3_self]
        norm_num)]
    obtain ⟨cam, tar, tr, res, foc⟩ := t
    simp_all [requestReturnApp, lerp3_self]
  · rw [stepApp_noFocus kfoc, moveApp_overview kfoc kres, ktar, lerp3_self,
      ← ktar]

/-- C7 witness: the no-op property instantiated at the home configurations
`c7Home` (camera `(0,250,0)`, distance 250, height 250) and `c7HomeApp`
(camera `(0,150,200)`). -/
theorem c7_return_idempotent_witness :
    (c7Home.focused = none ∧ c7Home.isResetting = false ∧
     c7Home.target = origin ∧ 250 ≤ norm3 c7Home.camPos ∧
     50 ≤ c7Home.camPos.y ∧
     c7HomeApp.focused = none ∧ c7HomeApp.isResetting = false ∧
     c7HomeApp.target = origin ∧ c7HomeApp.camPos = homeApp) ∧
    (stepP1 (requestReturnP1 c7Home) = c7Home ∧
     requestReturnP1 (requestReturnP1 c7Home) = requestReturnP1 c7Home ∧
     stepP1 c7Home = c7Home ∧
     stepApp (requestReturnApp c7HomeApp) = c7HomeApp ∧
     requestReturnApp (requestReturnApp c7HomeApp) = requestReturnApp c7HomeApp ∧
     stepApp c7HomeApp = c7HomeApp) := by
  have h250 : norm3 c7Home.camPos = 250 :=
    sqrtEqOfSq (by norm_num) (by norm_num [normSq3, c7Home])
  have hdist : 250 ≤ norm3 c7Home.camPos := by rw [h250]
  have hy : 50 ≤ c7Home.camPos.y := by norm_num [c7Home]
  exact ⟨⟨rfl, rfl, rfl, hdist, hy, rfl, rfl, rfl, rfl⟩,
    c7_return_idempotent c7Home rfl rfl rfl hdist hy c7HomeApp rfl rfl rfl rfl⟩

/-- C8 counterexample: in `part_001`, when the selected body's live-position
handle is unavailable the per-frame update does NOT clear the Selection and
does NOT set the resetting flag — the selection survives the frame, refuting
the implicit-return behavior. -/
theorem c8_counterexample :
    c8Missing.focused = some ⟨false, 1, none⟩ ∧
    (stepP1 c8Missing).focused = some ⟨false, 1, none⟩ ∧
    (stepP1 c8Missing).focused ≠ none ∧
    (stepP1 c8Missing).isResetting = false := by
  have h := stepP1_handleMissing (s := c8Missing) (f := ⟨false, 1, none⟩) rfl rfl
  refine ⟨rfl, by rw [h]; rfl, ?_, by rw [h]; rfl⟩
  rw [h]
  show some (⟨false, 1, none⟩ : FocusData) ≠ none
  simp

/-- C8 (amended): when a body is selected but its live-position handle is
unavailable, the `part_001` frame update behaves exactly like the no-focus
overview branch — it eases the look-at target toward the origin (and keeps
the minimum-distance rule for the camera) — but it leaves the Selection, the
resetting flag, and the transition flag unchanged; no implicit return is
performed. -/
theorem c8_missing_handle (s : CtrlState) (f : FocusData)
    (hf : s.focused = some f) (hl : f.livePos = none) :
    stepP1 s = overviewBranchP1 s ∧
    (stepP1 s).focused = s.focused ∧
    (stepP1 s).isResetting = s.isResetting ∧
    (stepP1 s).isTransitioning = s.isTransitioning ∧
    (stepP1 s).target = lerp3 s.target origin 0.05 := by
  have h := stepP1_handleMissing hf hl
  exact ⟨h, by rw [h]; rfl, by rw [h]; rfl, by rw [h]; rfl, by rw [h]; rfl⟩

/-- C8 witness: the missing-handle behavior instantiated at `c8Missing`. -/
theorem c8_missing_handle_witness :
    (c8Missing.focused = some ⟨false, 1, none⟩ ∧
     (⟨false, 1, none⟩ : FocusData).livePos = none) ∧
    (stepP1 c8Missing = overviewBranchP1 c8Missing ∧
     (stepP1 c8Missing).focused = c8Missing.focused ∧
     (stepP1 c8Missing).isResetting = c8Missing.isResetting ∧
     (stepP1 c8Missing).isTransitioning = c8Missing.isTransitioning ∧
     (stepP1 c8Missing).target = lerp3 c8Missing.target origin 0.05) :=
  ⟨⟨rfl, rfl⟩, c8_missing_handle c8Missing ⟨false, 1, none⟩ rfl rfl⟩

/-- C9: in the `part_001` scene the moon's orbit center is the origin, not
its parent planet: the moon (orbital distance 3.6) stays at distance 3.6 from
the ORIGIN on every frame, and at phase 0 its world position differs from
"Earth's position plus the local offset" (Earth at `(0,0,38)`); in the
nested layout of the first `App.js` app the moon does stay at its orbital
distance (5) from its parent's world position. -/
theorem c9_moon_orbit_center :
    (∀ a : ℝ, dist3 (moonWorldPosP1 3.6 a) origin = 3.6) ∧
    (∀ (pp : Vec3) (a : ℝ), dist3 (moonWorldPosNested pp 5 a) pp = 5) ∧
    moonWorldPosP1 3.6 0 ≠ (⟨0, 0, 38⟩ : Vec3) + moonLocalPos 3.6 0 := by
  have hml : ∀ (d a : ℝ), 0 ≤ d → norm3 (moonLocalPos d a) = d := by
    intro d a hd
    apply sqrtEqOfSq hd
    have h := Real.sin_sq_add_cos_sq a
    simp only [normSq3, moonLocalPos]
    nlinarith [h]
  refine ⟨?_, ?_, ?_⟩
  · intro a
    unfold dist3 moonWorldPosP1
    rw [sub_origin]
    exact hml _ _ (by norm_num)
  · intro pp a
    unfold dist3 moonWorldPosNested
    have hsub : pp + moonLocalPos 5 a - pp = moonLocalPos 5 a := by
      simp only [Vec3.add_def, Vec3.sub_def, Vec3.ext_iff]
      refine ⟨by ring, by ring, by ring⟩
    rw [hsub]
    exact hml _ _ (by norm_num)
  · unfold moonWorldPosP1 moonLocalPos
    simp [Vec3.ext_iff]

/-- C10: in the `part_001` overview state (no selection, no pending reset), a
camera strictly inside distance 80 from the origin is lerped toward the point
at distance 120 along its current direction: the updated camera is a positive
scalar multiple of the old one (direction preserved), its distance becomes
`0.95 * d + 6` (strictly larger than `d` since `d < 120`), and the lerp
target is indeed at distance 120; a camera at distance 80 or more is left
unmoved by this branch. -/
theorem c10_min_overview_distance (s : CtrlState)
    (hfoc : s.focused = none) (hres : s.isResetting = false)
    (hne : s.camPos ≠ origin) (hlt : norm3 s.camPos < 80) :
    norm3 ((120 : ℝ) • normalize3 s.camPos) = 120 ∧
    (stepP1 s).camPos = (0.95 + 6 / norm3 s.camPos) • s.camPos ∧
    0 < 0.95 + 6 / norm3 s.camPos ∧
    norm3 (stepP1 s).camPos = 0.95 * norm3 s.camPos + 6 ∧
    norm3 s.camPos < norm3 (stepP1 s).camPos ∧
    (∀ u : CtrlState, u.focused = none → u.isResetting = false →
      80 ≤ norm3 u.camPos → (stepP1 u).camPos = u.camPos) := by
  have hn0 : (0:ℝ) < norm3 s.camPos := norm3_pos hne
  have hne0 : norm3 s.camPos ≠ 0 := ne_of_gt hn0
  have h120 : norm3 ((120 : ℝ) • normalize3 s.camPos) = 120 := by
    rw [norm3_smul, norm3_normalize3 hne]
    norm_num
  have hcam : (stepP1 s).camPos = (0.95 + 6 / norm3 s.camPos) • s.camPos := by
    rw [stepP1_noFocus hfoc hres, overviewBranchP1_near hlt]
    show lerp3 s.camPos ((120 : ℝ) • normalize3 s.camPos) 0.05 = _
    rw [normalize3_of_ne hne]
    simp only [lerp3, Vec3.smul_def, Vec3.add_def, Vec3.sub_def, Vec3.ext_iff]
    refine ⟨?_, ?_, ?_⟩ <;> field_simp <;> ring
  have hposc : (0:ℝ) < 0.95 + 6 / norm3 s.camPos := by positivity
  have hnorm : norm3 (stepP1 s).camPos = 0.95 * norm3 s.camPos + 6 := by
    rw [hcam, norm3_smul, abs_of_pos hposc]
    field_simp
  refine ⟨h120, hcam, hposc, hnorm, ?_, ?_⟩
  · rw [hnorm]
    linarith
  · intro u hu1 hu2 hu3
    rw [stepP1_noFocus hu1 hu2, overviewBranchP1_far (not_lt.mpr hu3)]

/-- C10 witness: the minimum-overview-distance rule instantiated at `c10Near`
(camera `(0,0,50)`, distance 50). -/
theorem c10_min_overview_distance_witness :
    (c10Near.focused = none ∧ c10Near.isResetting = false ∧
     c10Near.camPos ≠ origin ∧ norm3 c10Near.camPos < 80) ∧
    (norm3 ((120 : ℝ) • normalize3 c10Near.camPos) = 120 ∧
     (stepP1 c10Near).camPos = (0.95 + 6 / norm3 c10Near.camPos) • c10Near.camPos ∧
     0 < 0.95 + 6 / norm3 c10Near.camPos ∧
     norm3 (stepP1 c10Near).camPos = 0.95 * norm3 c10Near.camPos + 6 ∧
     norm3 c10Near.camPos < norm3 (stepP1 c10Near).camPos ∧
     (∀ u : CtrlState, u.focused = none → u.isResetting = false →
       80 ≤ norm3 u.camPos → (stepP1 u).camPos = u.camPos)) := by
  have hne : c10Near.camPos ≠ origin := by
    simp [c10Near, origin, Vec3.ext_iff]
  have h50 : norm3 c10Near.camPos = 50 :=
    sqrtEqOfSq (by norm_num) (by norm_num [normSq3, c10Near])
  have hlt : norm3 c10Near.camPos < 80 := by rw [h50]; norm_num
  exact ⟨⟨rfl, rfl, hne, hlt⟩,
    c10_min_overview_distance c10Near rfl rfl hne hlt⟩

end
